import Mathlib

/-!
Verification of the AI Headshot Generator single-page application.

The development shallowly embeds the two source modules:

* `src/services/geminiService.ts` — the generation adapter `generateHeadshot`
  together with its prompt template `fullPrompt`.  The external network call
  is represented by an oracle `callModel : GenRequest → CallResult` passed to
  the function; everything after the call is translated statement by
  statement, including the try/catch structure.

* `src/App.tsx` (component `ImageGenerator`) — the session state held in the
  React `useState` hooks is collected into one record `AppState`, and each
  handler (`handleFileSelect`, `handleGenerate`, `clearSourceImage`,
  `handleStartOver`) becomes a state transformer.  The rotating loading
  message effect becomes a small event-step machine.
-/

namespace Headshot

/-! ## Generation adapter (`src/services/geminiService.ts`) -/

/-- One content part of the model response: it may carry inline image data
(`inlineData`) and/or text, mirroring the `@google/genai` part shape used by
the source. -/
structure InlineData where
  mimeType : String
  data : String
deriving DecidableEq

structure Part where
  inlineData : Option InlineData
  text : Option String
deriving DecidableEq

/-- A JavaScript throwable: either an `Error` carrying a message, or any
other value (the `instanceof Error` test fails on it). -/
inductive Throwable where
  | err (msg : String)
  | nonError
deriving DecidableEq

/-- Outcome of the external `ai.models.generateContent` call: either the
content parts of `response.candidates[0].content`, or a thrown value. -/
inductive CallResult where
  | success (parts : List Part)
  | thrown (t : Throwable)
deriving DecidableEq

/-- The fixed template text of `fullPrompt` before the interpolated
user-instruction position (source lines 11–18 of `geminiService.ts`). -/
def promptHead : String :=
  "\n    Transform the provided image into a professional, studio-quality headshot.\n    The final image must be well-lit with soft, even lighting, suitable for a corporate or business profile like LinkedIn.\n    The background must be a neutral, blurred background (like a solid light gray, or a soft office blur).\n    The person\x27s facial details must be sharp and in focus.\n    The person should be centered, looking at the camera with a natural, confident expression.\n    The final image must be highly realistic, resembling a photograph taken with a high-end DSLR camera.\n    Strictly do not include any text, watermarks, or logos.\n    "

/-- The fixed template text after the interpolated position (the closing
newline and indentation of the template literal). -/
def promptTail : String := "\n  "

/-- The fixed phrase introducing the user-instruction clause. -/
def instructionPhrase : String := "Incorporate these user instructions: "

/-- Function `fullPrompt` as built in `generateHeadshot` (source lines
11–20): the template literal interpolates the instruction clause when
`description` is truthy; a JS string is falsy exactly when it is empty. -/
def fullPrompt (description : String) : String :=
  promptHead ++
    (if description = "" then ""
     else instructionPhrase ++ "\"" ++ description ++ "\"") ++
  promptTail

/-- The request sent to the external model: inline image bytes, their MIME
type, and the composed prompt (source lines 23–41). -/
structure GenRequest where
  imageData : String
  imageMimeType : String
  prompt : String
deriving DecidableEq

def buildRequest (base64Image mimeType description : String) : GenRequest :=
  { imageData := base64Image, imageMimeType := mimeType,
    prompt := fullPrompt description }

/-- The `for (const part of parts) if (part.inlineData) return ...` loop:
inline data of the first part that has any (source lines 43–48). -/
def firstInlineData : List Part → Option InlineData
  | [] => none
  | p :: ps =>
    match p.inlineData with
    | some d => some d
    | none => firstInlineData ps

/-- Message of the error thrown when no part carries image data
(source line 49). -/
def emptyResponseMessage : String :=
  "No image was generated. The response from the API was empty."

/-- Message prepended by the catch handler to a caught `Error`
(source line 53). -/
def failurePrefixText : String := "Failed to generate headshot: "

/-- Generic message for caught non-`Error` values (source line 55). -/
def unknownErrorMessage : String :=
  "An unknown error occurred while generating the headshot."

/-- The body of the `try` block in `generateHeadshot`: issue the call,
scan the parts, and either return the data URI of the first inline image or
throw the empty-response `Error`.  A thrown value propagates out. -/
def tryBody (callModel : GenRequest → CallResult)
    (req : GenRequest) : Except Throwable String :=
  match callModel req with
  | CallResult.thrown t => Except.error t
  | CallResult.success parts =>
    match firstInlineData parts with
    | some d =>
      Except.ok ("data:" ++ d.mimeType ++ ";base64," ++ d.data)
    | none => Except.error (Throwable.err emptyResponseMessage)

/-- The `catch` handler (source lines 50–56): an `Error` is re-thrown with
its message wrapped by `failurePrefixText`; anything else becomes the fixed
generic message. -/
def catchHandler : Throwable → String
  | Throwable.err msg => failurePrefixText ++ msg
  | Throwable.nonError => unknownErrorMessage

/-- Function `generateHeadshot` (source lines 10–57), with the external call
abstracted as `callModel`.  `Except.ok` is the resolved promise value,
`Except.error` the message of the `Error` ultimately thrown to the caller
(the catch handler only ever throws `Error`s). -/
def generateHeadshot (callModel : GenRequest → CallResult)
    (base64Image mimeType description : String) : Except String String :=
  match tryBody callModel (buildRequest base64Image mimeType description) with
  | Except.ok uri => Except.ok uri
  | Except.error t => Except.error (catchHandler t)

/-! ## Session state (`src/App.tsx`, component `ImageGenerator`) -/

/-- A selected browser file: its name, MIME type and contents. -/
structure WebFile where
  name : String
  type : String
  content : String
deriving DecidableEq

/-- The `useState` hooks of `ImageGenerator` gathered into one record
(source lines 59–65).  `isDragging` is omitted: it only styles the drop
target and is touched by no claim. -/
structure AppState where
  description : String
  sourceImageFile : Option WebFile
  sourceImagePreview : Option String
  generatedImage : Option String
  isLoading : Bool
  error : Option String
  loadingMessage : String
deriving DecidableEq

/-- The fixed ordered list of cosmetic loading messages
(source lines 29–36). -/
def loadingMessages : List String :=
  [ "Warming up the studio lights...",
    "Adjusting the camera lens...",
    "Finding the perfect angle...",
    "Applying professional touch-ups...",
    "Developing the photo in the digital darkroom...",
    "Polishing the final image..." ]

/-- Initial hook values (source lines 59–65). -/
def initialState : AppState :=
  { description := "", sourceImageFile := none, sourceImagePreview := none,
    generatedImage := none, isLoading := false, error := none,
    loadingMessage := loadingMessages.getD 0 "" }

/-- JavaScript `String.prototype.startsWith` (no position argument, as in
the source call): the search string is a prefix of the receiver. -/
def jsStartsWith (s pre : String) : Bool := pre.data.isPrefixOf s.data

/-- Handler `handleFileSelect` (source lines 98–111).  `objectURL` stands for the
fresh handle `URL.createObjectURL(file)` would return; revoking the old
handle is a browser resource effect with no state component. -/
def handleFileSelect (file : Option WebFile) (objectURL : String)
    (s : AppState) : AppState :=
  match file with
  | none => s
  | some f =>
    if ¬ jsStartsWith f.type "image/" then
      { s with error := some "Please upload a valid image file (PNG, JPG, WEBP)." }
    else
      { s with sourceImageFile := some f,
               sourceImagePreview := some objectURL,
               error := none }

/-- Handler `clearSourceImage` (source lines 136–142); resetting the file input
element has no state component. -/
def clearSourceImage (s : AppState) : AppState :=
  { s with sourceImageFile := none, sourceImagePreview := none }

/-- The synchronous head of `handleGenerate` once a source image is present
(source lines 150–153): raise the loading flag, clear the previous error and
generated image, and reset the loading message to the first one. -/
def handleGenerateStart (s : AppState) : AppState :=
  { s with isLoading := true, error := none, generatedImage := none,
           loadingMessage := loadingMessages.getD 0 "" }

/-- The error message stored by the catch clause of `handleGenerate`
(source lines 159–164). -/
def generateErrorMessage : Throwable → String
  | Throwable.err msg => msg
  | Throwable.nonError => "An unexpected error occurred."

/-- The continuation of `handleGenerate` after the awaits (source lines
155–167): `attempt` is the combined outcome of `fileToBase64` followed by
`generateHeadshot` — `Except.ok` the resolved image URL, `Except.error` a
value thrown by either step.  The `finally` clause clears the loading
flag on both paths. -/
def handleGenerateFinish (attempt : Except Throwable String)
    (s : AppState) : AppState :=
  match attempt with
  | Except.ok url => { s with generatedImage := some url, isLoading := false }
  | Except.error t =>
    { s with error := some (generateErrorMessage t), isLoading := false }

/-- Handler `handleGenerate` (source lines 144–168): with no source image it only
stores the guard message and returns; otherwise it runs start and finish. -/
def handleGenerate (attempt : Except Throwable String)
    (s : AppState) : AppState :=
  if s.sourceImageFile.isNone then
    { s with error := some "Please upload an image to start." }
  else
    handleGenerateFinish attempt (handleGenerateStart s)

/-- Handler `handleStartOver` (source lines 180–186). -/
def handleStartOver (s : AppState) : AppState :=
  clearSourceImage
    { s with description := "", generatedImage := none, error := none,
             isLoading := false }

/-- The phase vocabulary of the specification.  The component derives its
view from the hooks in this order: the loading screen if `isLoading`, the
result screen if a generated image is set, otherwise the editor (with or
without a selected image) — source lines 190–271. -/
inductive Phase where
  | idle
  | imageSelected
  | generating
  | succeeded
deriving DecidableEq

def phase (s : AppState) : Phase :=
  if s.isLoading then Phase.generating
  else if s.generatedImage.isSome then Phase.succeeded
  else if s.sourceImageFile.isSome then Phase.imageSelected
  else Phase.idle

/-- The specification phase `Failed`: a generation attempt ended with no image and
a stored error (the editor view showing the inline error). -/
def inFailedPhase (s : AppState) : Prop :=
  s.isLoading = false ∧ s.generatedImage = none ∧ s.error.isSome

instance (s : AppState) : Decidable (inFailedPhase s) := by
  unfold inFailedPhase; infer_instance

/-! ## Rotating loading message (source lines 71–88) -/

/-- JavaScript `Array.prototype.indexOf`: index of the first occurrence, or
`-1` when absent. -/
def jsIndexOf (l : List String) (x : String) : Int :=
  match l.findIdx? (fun y => y = x) with
  | some i => (i : Int)
  | none => -1

/-- One firing of the interval callback (source lines 74–78): advance the
message to the next one in the list, cyclically. -/
def rotateMessage (prev : String) : String :=
  let currentIndex := jsIndexOf loadingMessages prev
  let nextIndex := (currentIndex + 1) % (loadingMessages.length : Int)
  loadingMessages.getD nextIndex.toNat ""

/-- One interval firing on the whole app state: the callback is scheduled
only while `isLoading` holds (the effect clears the interval as soon as
`isLoading` falls, source lines 80–87). -/
def appTick (s : AppState) : AppState :=
  if s.isLoading then { s with loadingMessage := rotateMessage s.loadingMessage }
  else s

/-- The loading-message subsystem in isolation: the loading flag and the
displayed message. -/
structure LoadingView where
  isLoading : Bool
  message : String
deriving DecidableEq

/-- Events observed by the subsystem: a generation attempt starting
(source lines 150–153), one interval firing, and the attempt ending
(the `finally` clause). -/
inductive LoadingEvent where
  | start
  | tick
  | finish
deriving DecidableEq

def loadingStep : LoadingEvent → LoadingView → LoadingView
  | LoadingEvent.start, _ =>
    { isLoading := true, message := loadingMessages.getD 0 "" }
  | LoadingEvent.tick, s =>
    if s.isLoading then { s with message := rotateMessage s.message } else s
  | LoadingEvent.finish, s => { s with isLoading := false }

def loadingRun (es : List LoadingEvent) (s : LoadingView) : LoadingView :=
  es.foldl (fun s e => loadingStep e s) s

/-! ## Helper lemmas -/

theorem firstInlineData_eq_find (parts : List Part) :
    firstInlineData parts
      = (parts.find? fun q => q.inlineData.isSome).bind Part.inlineData := by
  induction parts with
  | nil => rfl
  | cons p ps ih =>
    cases h : p.inlineData with
    | some d => simp [firstInlineData, h, List.find?_cons_of_pos]
    | none => simpa [firstInlineData, h, List.find?_cons_of_neg] using ih

theorem firstInlineData_eq_none (parts : List Part)
    (h : ∀ p ∈ parts, p.inlineData = none) : firstInlineData parts = none := by
  induction parts with
  | nil => rfl
  | cons p ps ih =>
    have hp := h p (List.mem_cons_self p ps)
    simp only [firstInlineData, hp]
    exact ih fun q hq => h q (List.mem_cons_of_mem p hq)

theorem rotateMessage_getD_fin :
    ∀ i : Fin 6, rotateMessage (loadingMessages.getD i.val "")
      = loadingMessages.getD ((i.val + 1) % 6) "" := by decide

theorem rotateMessage_getD (k : Nat) :
    rotateMessage (loadingMessages.getD (k % 6) "")
      = loadingMessages.getD ((k + 1) % 6) "" := by
  have h6 : k % 6 < 6 := Nat.mod_lt _ (by norm_num)
  have := rotateMessage_getD_fin ⟨k % 6, h6⟩
  have harith : (k % 6 + 1) % 6 = (k + 1) % 6 := by omega
  simpa [harith] using this

theorem loadingRun_replicate_tick (n : Nat) : ∀ k : Nat,
    loadingRun (List.replicate n LoadingEvent.tick)
        ⟨true, loadingMessages.getD (k % 6) ""⟩
      = ⟨true, loadingMessages.getD ((k + n) % 6) ""⟩ := by
  induction n with
  | zero => intro k; rfl
  | succ n ih =>
    intro k
    have hstep :
        loadingRun (List.replicate (n + 1) LoadingEvent.tick)
            ⟨true, loadingMessages.getD (k % 6) ""⟩
          = loadingRun (List.replicate n LoadingEvent.tick)
              ⟨true, rotateMessage (loadingMessages.getD (k % 6) "")⟩ := rfl
    rw [hstep, rotateMessage_getD, ih (k + 1)]
    have harith : k + 1 + n = k + (n + 1) := by omega
    rw [harith]

theorem appTick_preserves (s : AppState) :
    (appTick s).isLoading = s.isLoading
    ∧ (appTick s).generatedImage = s.generatedImage
    ∧ (appTick s).error = s.error := by
  unfold appTick; split <;> simp

/-! ## Claims about the generation adapter -/

/-- Claim C1: for every adapter response whose content parts contain at
least one part with inline image data, `generateHeadshot` returns the data
URI `data:<mime>;base64,<payload>` built from the first such part in order,
with the MIME type of that part and its base64 payload unchanged. -/
theorem generateHeadshot_first_inline_part
    (parts : List Part) (p : Part) (d : InlineData)
    (hfind : parts.find? (fun q => q.inlineData.isSome) = some p)
    (hd : p.inlineData = some d)
    (base64Image mimeType description : String) :
    generateHeadshot (fun _ => CallResult.success parts)
        base64Image mimeType description
      = Except.ok ("data:" ++ d.mimeType ++ ";base64," ++ d.data) := by
  have hfi : firstInlineData parts = some d := by
    rw [firstInlineData_eq_find, hfind]; simp [hd]
  simp [generateHeadshot, tryBody, buildRequest, hfi]

/-- Claim C1 witness: a response with a text part followed by two image
parts yields the data URI of the first image part. -/
theorem generateHeadshot_first_inline_part_witness :
    generateHeadshot
        (fun _ => CallResult.success
          [ { inlineData := none, text := some "caption" },
            { inlineData := some { mimeType := "image/png", data := "QUJD" },
              text := none },
            { inlineData := some { mimeType := "image/jpeg", data := "WFla" },
              text := none } ])
        "c3Jj" "image/png" ""
      = Except.ok ("data:" ++ "image/png" ++ ";base64," ++ "QUJD") :=
  generateHeadshot_first_inline_part _
    { inlineData := some { mimeType := "image/png", data := "QUJD" }, text := none }
    { mimeType := "image/png", data := "QUJD" }
    (by decide) rfl "c3Jj" "image/png" ""

/-- Claim C2 counterexample: on a successful response with no image part
the adapter does not surface the empty-response message verbatim — the
thrown empty-response `Error` is caught by the catch clause of the adapter itself
and re-thrown with the fixed failure phrase prepended. -/
theorem generateHeadshot_empty_response_cex :
    generateHeadshot
        (fun _ => CallResult.success [{ inlineData := none, text := some "no image" }])
        "c3Jj" "image/png" ""
      = Except.error
          "Failed to generate headshot: No image was generated. The response from the API was empty."
    ∧ ("Failed to generate headshot: No image was generated. The response from the API was empty." : String)
      ≠ "No image was generated. The response from the API was empty." := by
  constructor
  · rfl
  · decide

/-- Claim C2 amended: for every successful adapter response with zero
inline-image parts, `generateHeadshot` fails with the classified
empty-response error, whose message reaches the caller wrapped with the
fixed failure phrase (the throw happens inside the try block and is caught
by the catch handler of the adapter itself). -/
theorem generateHeadshot_empty_response
    (parts : List Part) (h : ∀ p ∈ parts, p.inlineData = none)
    (base64Image mimeType description : String) :
    generateHeadshot (fun _ => CallResult.success parts)
        base64Image mimeType description
      = Except.error ("Failed to generate headshot: "
          ++ "No image was generated. The response from the API was empty.") := by
  have hfi : firstInlineData parts = none := firstInlineData_eq_none parts h
  simp [generateHeadshot, tryBody, buildRequest, hfi, catchHandler,
    failurePrefixText, emptyResponseMessage]

/-- Claim C2 witness: a one-text-part response produces the wrapped
empty-response failure. -/
theorem generateHeadshot_empty_response_witness :
    generateHeadshot
        (fun _ => CallResult.success [{ inlineData := none, text := some "t" }])
        "aW1n" "image/jpeg" "smile please"
      = Except.error ("Failed to generate headshot: "
          ++ "No image was generated. The response from the API was empty.") :=
  generateHeadshot_empty_response _ (by decide) "aW1n" "image/jpeg" "smile please"

/-- Claim C3: a throwable raised by the underlying external call is
classified by the adapter — an `Error` is surfaced with its message wrapped
by the fixed phrase "Failed to generate headshot: ", and any non-`Error`
value maps to the single fixed generic message. -/
theorem generateHeadshot_thrown
    (base64Image mimeType description msg : String) :
    generateHeadshot (fun _ => CallResult.thrown (Throwable.err msg))
        base64Image mimeType description
      = Except.error ("Failed to generate headshot: " ++ msg)
    ∧ generateHeadshot (fun _ => CallResult.thrown Throwable.nonError)
        base64Image mimeType description
      = Except.error "An unknown error occurred while generating the headshot." :=
  ⟨rfl, rfl⟩

set_option maxRecDepth 40000 in
/-- Claim C4: the prompt builder is a pure function of the instruction
text — equal inputs give equal outputs; the empty instruction yields the
bare template, in which the fixed user-instruction phrase does not occur;
a non-empty instruction yields the template with exactly one appended
clause holding the instruction text verbatim after the fixed phrase. -/
theorem fullPrompt_clause (description other : String) :
    (other = description → fullPrompt other = fullPrompt description)
    ∧ fullPrompt "" = promptHead ++ promptTail
    ∧ instructionPhrase = "Incorporate these user instructions: "
    ∧ ¬ (instructionPhrase.data <:+: (fullPrompt "").data)
    ∧ (description ≠ "" →
        fullPrompt description
          = promptHead ++ (instructionPhrase ++ "\"" ++ description ++ "\"")
              ++ promptTail) := by
  refine ⟨fun h => by rw [h], by simp [fullPrompt], rfl, by decide, fun h => ?_⟩
  simp [fullPrompt, h]

/-- Claim C4 witness: the builder at the instruction "wear a suit". -/
theorem fullPrompt_clause_witness :
    fullPrompt "wear a suit" = fullPrompt "wear a suit"
    ∧ fullPrompt "wear a suit"
      = promptHead ++ (instructionPhrase ++ "\"" ++ "wear a suit" ++ "\"")
          ++ promptTail :=
  ⟨(fullPrompt_clause "wear a suit" "wear a suit").1 rfl,
   (fullPrompt_clause "wear a suit" "wear a suit").2.2.2.2 (by decide)⟩

/-! ## Claims about the session state machine -/

/-- Claim C5: selecting a file whose MIME type does not start with
"image/" only stores the inline error message; the stored source image
file and preview and every other state component are unchanged, so the
derived phase (Idle in particular) is unchanged. -/
theorem handleFileSelect_rejects_non_image
    (f : WebFile) (objectURL : String) (s : AppState)
    (h : jsStartsWith f.type "image/" = false) :
    handleFileSelect (some f) objectURL s
      = { s with error := some "Please upload a valid image file (PNG, JPG, WEBP)." }
    ∧ (handleFileSelect (some f) objectURL s).sourceImageFile = s.sourceImageFile
    ∧ (handleFileSelect (some f) objectURL s).sourceImagePreview = s.sourceImagePreview
    ∧ (handleFileSelect (some f) objectURL s).generatedImage = s.generatedImage
    ∧ (handleFileSelect (some f) objectURL s).isLoading = s.isLoading
    ∧ (handleFileSelect (some f) objectURL s).description = s.description
    ∧ phase (handleFileSelect (some f) objectURL s) = phase s := by
  simp [handleFileSelect, h, phase]

/-- Claim C5 witness: selecting a plain-text file from the initial state
stores the error and keeps the phase at Idle. -/
theorem handleFileSelect_rejects_non_image_witness :
    handleFileSelect
        (some { name := "notes.txt", type := "text/plain", content := "hi" })
        "blob:1" initialState
      = { initialState with
            error := some "Please upload a valid image file (PNG, JPG, WEBP)." }
    ∧ phase (handleFileSelect
        (some { name := "notes.txt", type := "text/plain", content := "hi" })
        "blob:1" initialState) = phase initialState := by
  have h := handleFileSelect_rejects_non_image
    { name := "notes.txt", type := "text/plain", content := "hi" }
    "blob:1" initialState (by decide)
  exact ⟨h.1, h.2.2.2.2.2.2⟩

/-- Claim C6: invoking generate with no source image selected stores
exactly the guard message "Please upload an image to start."; the result
does not depend on what any encoding or network attempt would return (so
neither is consulted), and the phase, source image, preview, instruction
text, generation result and loading flag are unchanged. -/
theorem handleGenerate_without_image
    (s : AppState) (h : s.sourceImageFile = none)
    (attempt otherAttempt : Except Throwable String) :
    handleGenerate attempt s
      = { s with error := some "Please upload an image to start." }
    ∧ handleGenerate attempt s = handleGenerate otherAttempt s
    ∧ (handleGenerate attempt s).sourceImageFile = s.sourceImageFile
    ∧ (handleGenerate attempt s).sourceImagePreview = s.sourceImagePreview
    ∧ (handleGenerate attempt s).description = s.description
    ∧ (handleGenerate attempt s).generatedImage = s.generatedImage
    ∧ (handleGenerate attempt s).isLoading = s.isLoading
    ∧ phase (handleGenerate attempt s) = phase s := by
  simp [handleGenerate, h, phase]

/-- Claim C6 witness: generate from the initial state, for two different
attempt outcomes. -/
theorem handleGenerate_without_image_witness :
    handleGenerate (Except.ok "data:image/png;base64,QUJD") initialState
      = { initialState with error := some "Please upload an image to start." }
    ∧ handleGenerate (Except.ok "data:image/png;base64,QUJD") initialState
      = handleGenerate (Except.error Throwable.nonError) initialState := by
  have h := handleGenerate_without_image initialState rfl
    (Except.ok "data:image/png;base64,QUJD") (Except.error Throwable.nonError)
  exact ⟨h.1, h.2.1⟩

/-- Claim C7: the "start over" action taken from the Succeeded or Failed
phase resets the session to Idle — source image file and preview,
instruction text, generated image and error all become empty/absent and
the loading flag is cleared. -/
theorem handleStartOver_resets
    (s : AppState) (_hp : phase s = Phase.succeeded ∨ inFailedPhase s) :
    handleStartOver s
      = { description := "", sourceImageFile := none,
          sourceImagePreview := none, generatedImage := none,
          isLoading := false, error := none,
          loadingMessage := s.loadingMessage }
    ∧ phase (handleStartOver s) = Phase.idle := by
  constructor
  · simp [handleStartOver, clearSourceImage]
  · simp [handleStartOver, clearSourceImage, phase]

/-- Claim C7 witness: start over from a concrete Succeeded state. -/
theorem handleStartOver_resets_witness :
    handleStartOver
        { description := "smile",
          sourceImageFile := some { name := "me.png", type := "image/png", content := "cGl4" },
          sourceImagePreview := some "blob:2",
          generatedImage := some "data:image/png;base64,QUJD",
          isLoading := false, error := none,
          loadingMessage := "Polishing the final image..." }
      = { description := "", sourceImageFile := none,
          sourceImagePreview := none, generatedImage := none,
          isLoading := false, error := none,
          loadingMessage := "Polishing the final image..." }
    ∧ phase (handleStartOver
        { description := "smile",
          sourceImageFile := some { name := "me.png", type := "image/png", content := "cGl4" },
          sourceImagePreview := some "blob:2",
          generatedImage := some "data:image/png;base64,QUJD",
          isLoading := false, error := none,
          loadingMessage := "Polishing the final image..." }) = Phase.idle :=
  handleStartOver_resets _ (Or.inl (by decide))

/-- Claim C8: with a source image present, the generate action runs the
attempt from the start state, which clears the prior generated image and
error before the awaits; along any number of interval firings while
loading, the state keeps the loading flag set with no generated image and
no error, so the Generating phase carries no GenerationResult. -/
theorem handleGenerate_generating_invariant
    (s : AppState) (h : s.sourceImageFile.isSome = true)
    (attempt : Except Throwable String) (n : Nat) :
    handleGenerate attempt s
      = handleGenerateFinish attempt (handleGenerateStart s)
    ∧ (appTick^[n] (handleGenerateStart s)).isLoading = true
    ∧ (appTick^[n] (handleGenerateStart s)).generatedImage = none
    ∧ (appTick^[n] (handleGenerateStart s)).error = none
    ∧ phase (appTick^[n] (handleGenerateStart s)) = Phase.generating := by
  have key : ∀ m : Nat,
      (appTick^[m] (handleGenerateStart s)).isLoading = true
      ∧ (appTick^[m] (handleGenerateStart s)).generatedImage = none
      ∧ (appTick^[m] (handleGenerateStart s)).error = none := by
    intro m
    induction m with
    | zero => simp [handleGenerateStart]
    | succ m ih =>
      rw [Function.iterate_succ_apply']
      have hp := appTick_preserves (appTick^[m] (handleGenerateStart s))
      exact ⟨hp.1.trans ih.1, hp.2.1.trans ih.2.1, hp.2.2.trans ih.2.2⟩
  have hn : s.sourceImageFile.isNone = false := by
    rcases Option.isSome_iff_exists.mp h with ⟨f, hf⟩; simp [hf]
  refine ⟨by simp [handleGenerate, hn], (key n).1, (key n).2.1, (key n).2.2, ?_⟩
  simp [phase, (key n).1]

/-- Claim C8 witness: two interval firings after starting generation from a
state with a selected image leave the loading flag set and no generated
image or error stored. -/
theorem handleGenerate_generating_invariant_witness :
    (appTick^[2] (handleGenerateStart
        { description := "", 
          sourceImageFile := some { name := "me.png", type := "image/png", content := "cGl4" },
          sourceImagePreview := some "blob:3", generatedImage := some "old",
          isLoading := false, error := some "old error",
          loadingMessage := "Warming up the studio lights..." })).generatedImage = none
    ∧ (appTick^[2] (handleGenerateStart
        { description := "", 
          sourceImageFile := some { name := "me.png", type := "image/png", content := "cGl4" },
          sourceImagePreview := some "blob:3", generatedImage := some "old",
          isLoading := false, error := some "old error",
          loadingMessage := "Warming up the studio lights..." })).error = none := by
  have h := handleGenerate_generating_invariant
    { description := "", 
      sourceImageFile := some { name := "me.png", type := "image/png", content := "cGl4" },
      sourceImagePreview := some "blob:3", generatedImage := some "old",
      isLoading := false, error := some "old error",
      loadingMessage := "Warming up the studio lights..." }
    (by decide) (Except.ok "data:image/png;base64,QUJD") 2
  exact ⟨h.2.2.1, h.2.2.2.1⟩

/-- Claim C9 counterexample: a run in which generation starts, one interval
fires, and generation ends leaves the second list entry displayed — ending
Generating stops rotation but does not reset the status message to the
first entry of the list. -/
theorem loadingMessage_not_reset_on_finish :
    loadingRun [LoadingEvent.start, LoadingEvent.tick, LoadingEvent.finish]
        ⟨false, loadingMessages.getD 0 ""⟩
      = ⟨false, loadingMessages.getD 1 ""⟩
    ∧ loadingMessages.getD 1 "" ≠ loadingMessages.getD 0 "" := by
  constructor
  · rfl
  · decide

/-- Claim C9 amended: while Generating the status message advances on each
interval firing cyclically through the fixed ordered list starting from the
first entry; interval firings have no effect once Generating has ended; a
(re)start of Generating resets the message to the first entry; ending
Generating stops the rotation but leaves the last shown message in place
rather than resetting it to the first entry. -/
theorem loadingMessage_rotation (n : Nat) (s v : LoadingView) :
    (loadingRun (LoadingEvent.start :: List.replicate n LoadingEvent.tick) s).message
      = loadingMessages.getD (n % 6) ""
    ∧ (v.isLoading = false → loadingStep LoadingEvent.tick v = v)
    ∧ (loadingStep LoadingEvent.start v).message = loadingMessages.getD 0 ""
    ∧ (loadingStep LoadingEvent.finish v).message = v.message
    ∧ (loadingStep LoadingEvent.finish v).isLoading = false := by
  refine ⟨?_, fun hv => ?_, rfl, rfl, rfl⟩
  · have hrun : loadingRun (LoadingEvent.start :: List.replicate n LoadingEvent.tick) s
        = loadingRun (List.replicate n LoadingEvent.tick)
            ⟨true, loadingMessages.getD (0 % 6) ""⟩ := rfl
    rw [hrun, loadingRun_replicate_tick n 0]
    simp
  · simp [loadingStep, hv]

/-- Claim C9 witness: seven firings starting from a non-loading view cycle
back to the second entry, and a firing while not loading changes nothing. -/
theorem loadingMessage_rotation_witness :
    (loadingRun (LoadingEvent.start :: List.replicate 7 LoadingEvent.tick)
        ⟨false, "stale"⟩).message = loadingMessages.getD (7 % 6) ""
    ∧ loadingStep LoadingEvent.tick ⟨false, "idle text"⟩ = ⟨false, "idle text"⟩ := by
  have h := loadingMessage_rotation 7 ⟨false, "stale"⟩ ⟨false, "idle text"⟩
  exact ⟨h.1, h.2.1 rfl⟩

/-- Claim C10: a failing generation attempt with a source image present
keeps the source image file, its preview and the instruction text
unchanged; the error is set to the thrown `Error` message (or the fixed
generic message for a non-`Error` value) and the loading flag is cleared,
so the user can retry without re-uploading. -/
theorem handleGenerate_failure_preserves_inputs
    (s : AppState) (f : WebFile) (h : s.sourceImageFile = some f)
    (t : Throwable) (msg : String) :
    handleGenerate (Except.error t) s
      = { s with generatedImage := none, isLoading := false,
                 loadingMessage := loadingMessages.getD 0 "",
                 error := some (generateErrorMessage t) }
    ∧ (handleGenerate (Except.error t) s).sourceImageFile = some f
    ∧ (handleGenerate (Except.error t) s).sourceImagePreview = s.sourceImagePreview
    ∧ (handleGenerate (Except.error t) s).description = s.description
    ∧ (handleGenerate (Except.error t) s).isLoading = false
    ∧ generateErrorMessage (Throwable.err msg) = msg
    ∧ generateErrorMessage Throwable.nonError = "An unexpected error occurred." := by
  simp [handleGenerate, h, handleGenerateStart, handleGenerateFinish,
    generateErrorMessage]

/-- Claim C10 witness: an adapter failure carrying a wrapped message leaves
the concrete selected file, preview and instructions in place. -/
theorem handleGenerate_failure_preserves_inputs_witness :
    handleGenerate (Except.error (Throwable.err "Failed to generate headshot: boom"))
        { description := "blue shirt",
          sourceImageFile := some { name := "me.jpg", type := "image/jpeg", content := "cGl4" },
          sourceImagePreview := some "blob:4", generatedImage := none,
          isLoading := false, error := none,
          loadingMessage := "Warming up the studio lights..." }
      = { description := "blue shirt",
          sourceImageFile := some { name := "me.jpg", type := "image/jpeg", content := "cGl4" },
          sourceImagePreview := some "blob:4", generatedImage := none,
          isLoading := false,
          error := some (generateErrorMessage (Throwable.err "Failed to generate headshot: boom")),
          loadingMessage := loadingMessages.getD 0 "" }
    ∧ generateErrorMessage (Throwable.err "Failed to generate headshot: boom")
      = "Failed to generate headshot: boom" := by
  have h := handleGenerate_failure_preserves_inputs
    { description := "blue shirt",
      sourceImageFile := some { name := "me.jpg", type := "image/jpeg", content := "cGl4" },
      sourceImagePreview := some "blob:4", generatedImage := none,
      isLoading := false, error := none,
      loadingMessage := "Warming up the studio lights..." }
    { name := "me.jpg", type := "image/jpeg", content := "cGl4" } rfl
    (Throwable.err "Failed to generate headshot: boom")
    "Failed to generate headshot: boom"
  exact ⟨h.1, h.2.2.2.2.2.1⟩

end Headshot
